import Mathlib

/-!
Verification of the real-time event pipeline of the channel-points miner:
the pub/sub connection pool (`WebSocketsPool`), its message dispatcher, the
wager (prediction) scheduling path, and the minute-watched watch scheduler
(`Twitch.send_minute_watched_events`), shallowly embedded from the Python
sources.  Time values are modelled as rationals, topic names and channel
ids as naturals, and fallible operations (attribute errors on `None`,
uncaught exceptions) as `Except`.
-/

/-- One pub/sub connection as held by the pool (`TwitchWebSocket` state used
by `WebSocketsPool`): its slot index, the ordered list of subscribed topics
(capacity 50), the opened flag, the topics queued while the socket is not yet
open, and the flags driven by shutdown and reconnection. -/
structure Conn where
  index : Nat
  topics : List Nat
  is_opened : Bool
  pending_topics : List Nat
  forced_close : Bool
  is_closed : Bool
deriving Repr, DecidableEq

/-- Fresh connection created by `append_new_websocket`: indexed by the current
pool length, not yet opened, with no topics. -/
def fresh_conn (n : Nat) : Conn :=
  { index := n, topics := [], is_opened := false, pending_topics := [],
    forced_close := false, is_closed := false }

/-- Appending a topic to a connection (`self.ws[-1].topics.append(topic)`
followed by queueing it as pending when the socket is not yet opened). -/
def add_topic (c : Conn) (topic : Nat) : Conn :=
  { c with topics := c.topics ++ [topic],
           pending_topics :=
             if c.is_opened then c.pending_topics
             else c.pending_topics ++ [topic] }

/-- WebSocketsPool.submit: when the pool is empty or the tail connection
already holds 50 or more topics, append a fresh connection; then append the
topic to the tail connection.  Reading the tail slot dereferences it, so a
`None` left in the last slot by `handle_reconnection` raises an attribute
error, modelled as `.error ()`. -/
def submit (ws : List (Option Conn)) (topic : Nat) :
    Except Unit (List (Option Conn)) :=
  match ws.getLast? with
  | none => .ok [some (add_topic (fresh_conn ws.length) topic)]
  | some none => .error ()
  | some (some c) =>
      if 50 ≤ c.topics.length then
        .ok (ws ++ [some (add_topic (fresh_conn ws.length) topic)])
      else
        .ok (ws.dropLast ++ [some (add_topic c topic)])

/-- Sequential submission of a list of topics, propagating the first
failure (each loop over `submit` in the source is strictly sequential). -/
def submitAll : List (Option Conn) → List Nat → Except Unit (List (Option Conn))
  | ws, [] => .ok ws
  | ws, t :: ts =>
      match submit ws t with
      | .error e => .error e
      | .ok ws2 => submitAll ws2 ts

/-- WebSocketsPool.handle_reconnection: mark the connection closed; when
`forced_close` is false, sleep 30 seconds, blank the connection's slot in the
pool and re-submit each of its topics in order; when `forced_close` is true do
nothing further.  The result carries the new pool and the slept cooldown. -/
def handle_reconnection (pool : List (Option Conn)) (c : Conn) :
    Except Unit (List (Option Conn) × Nat) :=
  if c.forced_close then .ok (pool, 0)
  else (submitAll (pool.set c.index none) c.topics).map (fun p => (p, 30))

/-- Flattened topic content of a pool, in slot order (blank slots hold
nothing). -/
def allTopics : List (Option Conn) → List Nat
  | [] => []
  | none :: rest => allTopics rest
  | some c :: rest => c.topics ++ allTopics rest

/-- Every slot of the pool holds a live connection with at most 50 topics. -/
def GoodPool (ws : List (Option Conn)) : Prop :=
  ∀ oc ∈ ws, ∃ c, oc = some c ∧ c.topics.length ≤ 50

theorem allTopics_append (xs ys : List (Option Conn)) :
    allTopics (xs ++ ys) = allTopics xs ++ allTopics ys := by
  induction xs with
  | nil => simp [allTopics]
  | cons x xs ih =>
      cases x <;> simp [allTopics, ih]

theorem submit_good {ws : List (Option Conn)} (h : GoodPool ws) (t : Nat) :
    ∃ ws2, submit ws t = .ok ws2 ∧ GoodPool ws2 := by
  match hlast : ws.getLast? with
  | none =>
      refine ⟨[some (add_topic (fresh_conn ws.length) t)],
        by simp [submit, hlast], ?_⟩
      intro oc hoc
      simp only [List.mem_singleton] at hoc
      exact ⟨_, hoc, by simp [add_topic, fresh_conn]⟩
  | some none =>
      have hmem := List.mem_of_getLast?_eq_some hlast
      obtain ⟨c, hc, -⟩ := h _ hmem
      exact absurd hc (by simp)
  | some (some c) =>
      by_cases hcap : 50 ≤ c.topics.length
      · refine ⟨ws ++ [some (add_topic (fresh_conn ws.length) t)],
          by simp [submit, hlast, hcap], ?_⟩
        intro oc hoc
        rcases List.mem_append.1 hoc with hmem | hmem
        · exact h _ hmem
        · simp only [List.mem_singleton] at hmem
          exact ⟨_, hmem, by simp [add_topic, fresh_conn]⟩
      · have hlen : c.topics.length < 50 := Nat.lt_of_not_le hcap
        refine ⟨ws.dropLast ++ [some (add_topic c t)],
          by simp [submit, hlast, hcap], ?_⟩
        intro oc hoc
        rcases List.mem_append.1 hoc with hmem | hmem
        · exact h _ (List.dropLast_subset ws hmem)
        · simp only [List.mem_singleton] at hmem
          refine ⟨_, hmem, ?_⟩
          simp [add_topic, Nat.succ_le_of_lt hlen]

theorem submitAll_good {ws : List (Option Conn)} (h : GoodPool ws) :
    ∀ ts, ∃ ws2, submitAll ws ts = .ok ws2 ∧ GoodPool ws2 := by
  intro ts
  induction ts generalizing ws with
  | nil => exact ⟨ws, rfl, h⟩
  | cons t ts ih =>
      obtain ⟨ws1, heq, hgood⟩ := submit_good h t
      obtain ⟨ws2, heq2, hgood2⟩ := ih hgood
      exact ⟨ws2, by simp [submitAll, heq, heq2], hgood2⟩

/-- Claim C4 theorem: starting from the empty pool, any sequence of submit
calls succeeds and leaves every connection with at most 50 topics; and a
submit against a tail connection already holding exactly 50 topics appends a
fresh connection whose topic list is exactly the new topic. -/
theorem submit_topic_capacity :
    (∀ ts : List Nat, ∃ ws, submitAll [] ts = .ok ws ∧
        ∀ oc ∈ ws, ∃ c, oc = some c ∧ c.topics.length ≤ 50) ∧
    (∀ (ws : List (Option Conn)) (c : Conn) (t : Nat),
        ws.getLast? = some (some c) → c.topics.length = 50 →
        submit ws t = .ok (ws ++ [some (add_topic (fresh_conn ws.length) t)]) ∧
        (add_topic (fresh_conn ws.length) t).topics = [t]) := by
  constructor
  · intro ts
    obtain ⟨ws, heq, hgood⟩ :=
      @submitAll_good [] (by intro oc hoc; simp at hoc) ts
    exact ⟨ws, heq, hgood⟩
  · intro ws c t hlast hfifty
    refine ⟨?_, by simp [add_topic, fresh_conn]⟩
    simp [submit, hlast, hfifty]

def conn50 : Conn :=
  { index := 0, topics := List.replicate 50 0, is_opened := true,
    pending_topics := [], forced_close := false, is_closed := false }

def pool50 : List (Option Conn) := [some conn50]

/-- Witness for C4 at a concrete full pool: the 51st topic lands on a newly
opened connection. -/
theorem submit_topic_capacity_witness :
    submit pool50 7 =
      .ok (pool50 ++ [some (add_topic (fresh_conn pool50.length) 7)]) ∧
    (add_topic (fresh_conn pool50.length) 7).topics = [7] :=
  submit_topic_capacity.2 pool50 conn50 7 (by decide) (by decide)

/-- Claim C9 theorem: submit requires a live tail slot; once a `None` occupies
the last position of the pool list (as `handle_reconnection` leaves it),
submit raises (dereferencing `None` to read its topics) instead of opening a
fresh connection. -/
theorem submit_none_tail (pool : List (Option Conn)) (t : Nat)
    (h : pool.getLast? = some none) :
    submit pool t = .error () := by
  simp [submit, h]

/-- Witness for C9 at the one-slot pool left by a reconnection of its only
connection. -/
theorem submit_none_tail_witness : submit [none] 0 = .error () :=
  submit_none_tail [none] 0 (by decide)

theorem submit_last_live {ws : List (Option Conn)} {c : Conn} (t : Nat)
    (hlast : ws.getLast? = some (some c)) :
    ∃ ws2 d, submit ws t = .ok ws2 ∧ ws2.getLast? = some (some d) ∧
      allTopics ws2 = allTopics ws ++ [t] := by
  by_cases hcap : 50 ≤ c.topics.length
  · refine ⟨ws ++ [some (add_topic (fresh_conn ws.length) t)], _,
      by simp [submit, hlast, hcap], List.getLast?_concat _, ?_⟩
    simp [allTopics_append, allTopics, add_topic, fresh_conn]
  · have hdecomp : ws.dropLast ++ [some c] = ws :=
      List.dropLast_append_getLast? _ hlast
    refine ⟨ws.dropLast ++ [some (add_topic c t)], _,
      by simp [submit, hlast, hcap], List.getLast?_concat _, ?_⟩
    have hold : allTopics ws = allTopics ws.dropLast ++ c.topics := by
      rw [← hdecomp, allTopics_append]
      simp [allTopics]
    rw [hold, allTopics_append]
    simp [allTopics, add_topic]

theorem submitAll_last_live {ws : List (Option Conn)} {c : Conn}
    (hlast : ws.getLast? = some (some c)) :
    ∀ ts, ∃ ws2 d, submitAll ws ts = .ok ws2 ∧
      ws2.getLast? = some (some d) ∧ allTopics ws2 = allTopics ws ++ ts := by
  intro ts
  induction ts generalizing ws c with
  | nil => exact ⟨ws, c, rfl, hlast, by simp⟩
  | cons t ts ih =>
      obtain ⟨ws1, d, heq, hlast1, htop1⟩ := submit_last_live t hlast
      obtain ⟨ws2, e, heq2, hlast2, htop2⟩ := ih hlast1
      exact ⟨ws2, e, by simp [submitAll, heq, heq2],
        hlast2, by rw [htop2, htop1]; simp⟩

def crash_conn : Conn :=
  { index := 0, topics := [1, 2, 3], is_opened := true, pending_topics := [],
    forced_close := false, is_closed := false }

/-- Counterexample to C3 as stated: a non-operator-initiated closure of the
pool's only connection blanks the last slot and then the very first re-submit
dereferences the `None` there, so not a single topic is re-subscribed. -/
theorem handle_reconnection_counterexample :
    handle_reconnection [some crash_conn] crash_conn = .error () := rfl

/-- Claim C3 theorem (amended): when `forced_close` is true the reconnection
path re-submits nothing and sleeps nothing; when `forced_close` is false and
the pool, after blanking the closed connection's slot, still ends in a live
connection (the closed connection was not the pool's last slot), the handler
sleeps the fixed 30-unit cooldown and re-submits each carried topic exactly
once: the pool's flattened topic content ends up being the blanked pool's
content followed by the closed connection's topics, none lost, none
duplicated. -/
theorem handle_reconnection_amended (pool : List (Option Conn)) (c : Conn) :
    (c.forced_close = true → handle_reconnection pool c = .ok (pool, 0)) ∧
    (c.forced_close = false → ∀ d : Conn,
      (pool.set c.index none).getLast? = some (some d) →
      ∃ pool2, handle_reconnection pool c = .ok (pool2, 30) ∧
        allTopics pool2 = allTopics (pool.set c.index none) ++ c.topics) := by
  constructor
  · intro hfc
    simp [handle_reconnection, hfc]
  · intro hfc d hlast
    obtain ⟨pool2, e, heq, -, htop⟩ := submitAll_last_live hlast c.topics
    exact ⟨pool2, by simp [handle_reconnection, hfc, heq, Except.map], htop⟩

def conn_a : Conn :=
  { index := 0, topics := [1, 2, 3], is_opened := true, pending_topics := [],
    forced_close := false, is_closed := false }

def conn_b : Conn :=
  { index := 1, topics := [9], is_opened := true, pending_topics := [],
    forced_close := false, is_closed := false }

/-- Witness for C3 (amended) on a two-slot pool whose first connection drops:
all three carried topics are re-subscribed exactly once after the 30-unit
cooldown. -/
theorem handle_reconnection_amended_witness :
    ∃ pool2, handle_reconnection [some conn_a, some conn_b] conn_a
        = .ok (pool2, 30) ∧
      allTopics pool2 =
        allTopics (([some conn_a, some conn_b]).set conn_a.index none)
          ++ conn_a.topics :=
  (handle_reconnection_amended [some conn_a, some conn_b] conn_a).2
    rfl conn_b (by decide)

/-- An inbound MESSAGE frame's decoded fields as used by the dispatcher: the
dedup identifier (the message-type.topic.channel-id concatenation, kept
opaque), the message timestamp, the channel id, the topic and the raw
payload. -/
structure MsgData where
  identifier : Nat
  timestamp : Nat
  channel_id : Nat
  topic : Nat
  payload : Nat
deriving Repr, DecidableEq

/-- Per-connection dispatcher state touched by `WebSocketsPool.on_message`:
the retained dedup key, the tracked channel ids, the stream of successfully
routed messages (the state updates applied by topic handlers), the last-pong
timestamp and the reconnect flag. -/
structure WsMsgState where
  last_message_type_channel : Option Nat
  last_message_timestamp : Option Nat
  streamers : List Nat
  routed : List MsgData
  last_pong : Option Nat
  is_reconneting : Bool
deriving Repr, DecidableEq

/-- Log line emitted by the dispatch-boundary exception handler: the topic
and the raw payload of the offending message. -/
structure LogEntry where
  topic : Nat
  payload : Nat
deriving Repr, DecidableEq

/-- Envelope kinds distinguished by `on_message` (`response["type"]`). -/
inductive Frame
  | message (m : MsgData)
  | response (error : String)
  | reconnect
  | pong (now : Nat)
deriving Repr, DecidableEq

/-- Modelled from the spec: `utils.get_streamer_index` is not under src/
(only its caller is); it returns the index of the tracked channel with the
given id, or -1 when the id is not tracked locally (unroutable channel ids
are silently ignored). -/
def get_streamer_index : List Nat → Nat → Int
  | [], _ => -1
  | s :: rest, cid =>
      if s = cid then 0
      else if get_streamer_index rest cid = -1 then -1
      else get_streamer_index rest cid + 1

/-- Dedup test of `on_message`: both retained key components are present and
both equal the inbound message's timestamp and identifier. -/
def dedup_hit (s : WsMsgState) (m : MsgData) : Bool :=
  decide (s.last_message_type_channel ≠ none) &&
  decide (s.last_message_timestamp ≠ none) &&
  decide (s.last_message_timestamp = some m.timestamp) &&
  decide (s.last_message_type_channel = some m.identifier)

/-- Retention of the most recent dedup key on the connection. -/
def key_update (s : WsMsgState) (m : MsgData) : WsMsgState :=
  { s with last_message_timestamp := some m.timestamp,
           last_message_type_channel := some m.identifier }

/-- MESSAGE branch of `on_message`: drop on a dedup hit, otherwise retain the
key, look the channel up, and run the topic handler inside the dispatch
boundary's try/except — a handler exception (`handler_throws`, standing for the external
calls the handlers make) is caught and logged with topic and payload, never
escaping. -/
def process_message (handler_throws : Bool) (s : WsMsgState) (m : MsgData) :
    WsMsgState × List LogEntry :=
  if dedup_hit s m then (s, [])
  else
    let s1 := key_update s m
    if get_streamer_index s.streamers m.channel_id ≠ -1 then
      if handler_throws then (s1, [{ topic := m.topic, payload := m.payload }])
      else ({ s1 with routed := s1.routed ++ [m] }, [])
    else (s1, [])

/-- WebSocketsPool.on_message over one frame: PONG updates the last-pong
timestamp, RECONNECT marks the connection reconnecting, a RESPONSE carrying a
non-empty error raises (the uncaught `RuntimeError`), and a MESSAGE is
dispatched through `process_message`. -/
def on_message (handler_throws : Bool) (s : WsMsgState) :
    Frame → Except String (WsMsgState × List LogEntry)
  | .message m => .ok (process_message handler_throws s m)
  | .response err =>
      if 0 < err.length then .error err else .ok (s, [])
  | .reconnect => .ok ({ s with is_reconneting := true }, [])
  | .pong now => .ok ({ s with last_pong := some now }, [])

/-- Connection read loop: frames of one connection are handled strictly in
arrival order; an uncaught exception aborts the loop and loses the remaining
frames. -/
def read_loop : WsMsgState → List (Bool × Frame) →
    Except String (WsMsgState × List LogEntry)
  | s, [] => .ok (s, [])
  | s, (ht, f) :: rest =>
      match on_message ht s f with
      | .error e => .error e
      | .ok (s1, l1) =>
          match read_loop s1 rest with
          | .error e => .error e
          | .ok (s2, l2) => .ok (s2, l1 ++ l2)

theorem get_streamer_index_cases (l : List Nat) (cid : Nat) :
    get_streamer_index l cid = -1 ∨ 0 ≤ get_streamer_index l cid := by
  induction l with
  | nil => exact Or.inl rfl
  | cons s rest ih =>
      by_cases hs : s = cid
      · simp [get_streamer_index, hs]
      · by_cases hr : get_streamer_index rest cid = -1
        · simp [get_streamer_index, hs, hr]
        · rcases ih with h | h
          · exact absurd h hr
          · right
            simp only [get_streamer_index, if_neg hs, if_neg hr]
            omega

theorem get_streamer_index_ne_iff (l : List Nat) (cid : Nat) :
    get_streamer_index l cid ≠ -1 ↔ cid ∈ l := by
  induction l with
  | nil => simp [get_streamer_index]
  | cons s rest ih =>
      by_cases hs : s = cid
      · simp [get_streamer_index, hs]
      · by_cases hr : get_streamer_index rest cid = -1
        · have hnm : cid ∉ rest := fun hmem => (ih.2 hmem) hr
          simp [get_streamer_index, hs, hr, Ne.symm hs, hnm]
        · have hge : 0 ≤ get_streamer_index rest cid :=
            (get_streamer_index_cases rest cid).resolve_left hr
          have hmem : cid ∈ rest := ih.1 hr
          simp only [get_streamer_index, if_neg hs, if_neg hr]
          constructor
          · intro _
            exact List.mem_cons_of_mem _ hmem
          · intro _
            omega

theorem dedup_hit_iff (s : WsMsgState) (m : MsgData) :
    dedup_hit s m = true ↔
      s.last_message_type_channel = some m.identifier ∧
      s.last_message_timestamp = some m.timestamp := by
  simp only [dedup_hit, Bool.and_eq_true, decide_eq_true_eq]
  constructor
  · rintro ⟨⟨⟨-, -⟩, hts⟩, hid⟩
    exact ⟨hid, hts⟩
  · rintro ⟨hid, hts⟩
    exact ⟨⟨⟨by simp [hid], by simp [hts]⟩, hts⟩, hid⟩

theorem process_message_keys (ht : Bool) (s : WsMsgState) (m : MsgData) :
    (process_message ht s m).1.last_message_type_channel = some m.identifier ∧
    (process_message ht s m).1.last_message_timestamp = some m.timestamp ∧
    (process_message ht s m).1.streamers = s.streamers := by
  unfold process_message
  by_cases hd : dedup_hit s m = true
  · obtain ⟨h1, h2⟩ := (dedup_hit_iff s m).1 hd
    simp [hd, h1, h2]
  · simp only [hd, if_false, Bool.false_eq_true]
    split_ifs <;> simp [key_update]

/-- Claim C5 theorem: on one connection, a MESSAGE whose dedup key (identifier
and timestamp) equals the immediately preceding one is dropped before routing
(the state is returned untouched, so exactly one state update results from the
pair), while a MESSAGE whose key differs is processed — its key is retained as
the connection's most recent key and, when its channel is tracked, it is
routed. -/
theorem dedup_drops_back_to_back (s : WsMsgState) (m1 m2 m3 : MsgData)
    (hsame : m2.identifier = m1.identifier ∧ m2.timestamp = m1.timestamp)
    (hdiff : m3.identifier ≠ m1.identifier ∨ m3.timestamp ≠ m1.timestamp) :
    ∃ s1 l1, on_message false s (.message m1) = .ok (s1, l1) ∧
      on_message false s1 (.message m2) = .ok (s1, []) ∧
      ∃ s3 l3, on_message false s1 (.message m3) = .ok (s3, l3) ∧
        s3.last_message_type_channel = some m3.identifier ∧
        s3.last_message_timestamp = some m3.timestamp ∧
        (m3.channel_id ∈ s1.streamers → s3.routed = s1.routed ++ [m3]) := by
  obtain ⟨hk1, hk2, -⟩ := process_message_keys false s m1
  rcases hpair : process_message false s m1 with ⟨s1, l1⟩
  rw [hpair] at hk1 hk2
  simp only at hk1 hk2
  refine ⟨s1, l1, by simp [on_message, hpair], ?_, ?_⟩
  · have hhit : dedup_hit s1 m2 = true :=
      (dedup_hit_iff _ _).2 ⟨by rw [hk1, hsame.1], by rw [hk2, hsame.2]⟩
    simp [on_message, process_message, hhit]
  · have hmiss : dedup_hit s1 m3 = false := by
      rw [Bool.eq_false_iff]
      intro hhit
      obtain ⟨ha, hb⟩ := (dedup_hit_iff _ _).1 hhit
      rw [hk1] at ha
      rw [hk2] at hb
      rcases hdiff with hdi | hdt
      · exact hdi (Option.some.inj ha).symm
      · exact hdt (Option.some.inj hb).symm
    obtain ⟨hk1b, hk2b, -⟩ := process_message_keys false s1 m3
    refine ⟨(process_message false s1 m3).1, (process_message false s1 m3).2,
      by simp [on_message], hk1b, hk2b, ?_⟩
    intro hmem
    have hfound : get_streamer_index s1.streamers m3.channel_id ≠ -1 :=
      (get_streamer_index_ne_iff _ _).2 hmem
    simp [process_message, hmiss, hfound, key_update]

def dstate0 : WsMsgState :=
  { last_message_type_channel := none, last_message_timestamp := none,
    streamers := [5], routed := [], last_pong := none, is_reconneting := false }

def msg_one : MsgData :=
  { identifier := 1, timestamp := 10, channel_id := 5, topic := 3, payload := 0 }

def msg_dup : MsgData :=
  { identifier := 1, timestamp := 10, channel_id := 5, topic := 3, payload := 99 }

def msg_new : MsgData :=
  { identifier := 2, timestamp := 11, channel_id := 5, topic := 3, payload := 0 }

/-- Witness for C5 at a concrete tracked channel: the exact duplicate is
dropped and the fresh message is processed with its key retained. -/
theorem dedup_drops_back_to_back_witness :
    ∃ s1 l1, on_message false dstate0 (.message msg_one) = .ok (s1, l1) ∧
      on_message false s1 (.message msg_dup) = .ok (s1, []) ∧
      ∃ s3 l3, on_message false s1 (.message msg_new) = .ok (s3, l3) ∧
        s3.last_message_type_channel = some msg_new.identifier ∧
        s3.last_message_timestamp = some msg_new.timestamp ∧
        (msg_new.channel_id ∈ s1.streamers → s3.routed = s1.routed ++ [msg_new]) :=
  dedup_drops_back_to_back dstate0 msg_one msg_dup msg_new
    (by decide) (by decide)

theorem read_loop_messages_ok :
    ∀ (frames : List (Bool × Frame)) (s : WsMsgState),
      (∀ p ∈ frames, ∃ m, p.2 = Frame.message m) →
      ∃ s2 l, read_loop s frames = .ok (s2, l) := by
  intro frames
  induction frames with
  | nil => exact fun s _ => ⟨s, [], rfl⟩
  | cons p rest ih =>
      intro s hmsg
      obtain ⟨m, hm⟩ := hmsg p (List.mem_cons_self p rest)
      obtain ⟨ht, f⟩ := p
      simp only at hm
      subst hm
      obtain ⟨s2, l2, hrest⟩ :=
        ih (process_message ht s m).1
          (fun q hq => hmsg q (List.mem_cons_of_mem _ hq))
      exact ⟨s2, (process_message ht s m).2 ++ l2,
        by simp [read_loop, on_message, hrest]⟩

/-- Counterexample to C7 as stated: a RESPONSE frame carrying a non-empty
error raises an uncaught RuntimeError out of the dispatch boundary, aborting
the read loop and losing the subsequent PONG frame — so not every inbound
frame's exception is caught. -/
theorem on_message_response_counterexample :
    read_loop dstate0
        [(false, Frame.response "ERR_BADAUTH"), (false, Frame.pong 5)]
      = .error "ERR_BADAUTH" := rfl

/-- Claim C7 theorem (amended): for MESSAGE frames the per-topic handler runs
inside the dispatch boundary's try/except, so a read loop fed any sequence of
MESSAGE frames never aborts, whatever the handlers raise; and a handler
exception on a deduplicated, tracked message is converted into a log entry
carrying exactly the message's topic and payload, the connection state
otherwise just retaining the dedup key.  A RESPONSE frame carrying a
non-empty provider error instead raises out of the dispatcher by design. -/
theorem message_exceptions_isolated (s : WsMsgState)
    (frames : List (Bool × Frame))
    (hmsg : ∀ p ∈ frames, ∃ m, p.2 = Frame.message m) :
    (∃ s2 l, read_loop s frames = .ok (s2, l)) ∧
    (∀ (s1 : WsMsgState) (m : MsgData), dedup_hit s1 m = false →
      m.channel_id ∈ s1.streamers →
      process_message true s1 m =
        (key_update s1 m, [{ topic := m.topic, payload := m.payload }])) := by
  refine ⟨read_loop_messages_ok frames s hmsg, ?_⟩
  intro s1 m hd hmem
  have hfound : get_streamer_index s1.streamers m.channel_id ≠ -1 :=
    (get_streamer_index_ne_iff _ _).2 hmem
  simp [process_message, hd, hfound]

def msg_boom : MsgData :=
  { identifier := 7, timestamp := 20, channel_id := 5, topic := 4, payload := 8 }

/-- Witness for C7 (amended): a throwing handler on a tracked channel yields a
normal return with the topic-and-payload log entry, and the loop of MESSAGE
frames completes. -/
theorem message_exceptions_isolated_witness :
    (∃ s2 l, read_loop dstate0 [(true, Frame.message msg_boom)] = .ok (s2, l)) ∧
    process_message true dstate0 msg_boom =
      (key_update dstate0 msg_boom,
        [{ topic := msg_boom.topic, payload := msg_boom.payload }]) :=
  ⟨(message_exceptions_isolated dstate0 [(true, Frame.message msg_boom)]
      (by intro p hp; simp at hp; rw [hp]; exact ⟨msg_boom, rfl⟩)).1,
   (message_exceptions_isolated dstate0 []
      (by intro p hp; simp at hp)).2 dstate0 msg_boom (by decide) (by decide)⟩

/-- Safety margin subtracted from the prediction window in the event-created
branch of `on_message`: 25 seconds when the window is at most 180 seconds,
else 60. -/
def safety_margin (window : ℚ) : ℚ := if window ≤ 180 then 25 else 60

/-- Adjusted prediction window, `prediction_window_seconds -= (25 if
prediction_window_seconds <= 180 else 60)`. -/
def prediction_window_adjusted (window : ℚ) : ℚ := window - safety_margin window

/-- Modelled from the spec: the EventPrediction entity (holding `created_at`
and the adjusted window, with `closing_bet_after` measuring against it) is not
under src/; per the spec the submission deadline is
closesAt = createdAt + predictionWindow − safetyMargin, the margin being the
source-computed `safety_margin`. -/
def closesAt (createdAt window : ℚ) : ℚ :=
  createdAt + prediction_window_adjusted window

/-- Claim C6 theorem: the deadline is createdAt + window − margin with margin
25 for windows of at most 180 units and 60 otherwise; in particular a window
of 150 yields createdAt + 125 and a window of 300 yields createdAt + 240. -/
theorem closesAt_margin (createdAt : ℚ) :
    closesAt createdAt 150 = createdAt + 125 ∧
    closesAt createdAt 300 = createdAt + 240 ∧
    (∀ window : ℚ, window ≤ 180 →
      closesAt createdAt window = createdAt + window - 25) ∧
    (∀ window : ℚ, 180 < window →
      closesAt createdAt window = createdAt + window - 60) := by
  refine ⟨?_, ?_, ?_, ?_⟩
  · simp [closesAt, prediction_window_adjusted, safety_margin]
    norm_num
  · simp [closesAt, prediction_window_adjusted, safety_margin]
    norm_num
  · intro window hw
    simp [closesAt, prediction_window_adjusted, safety_margin, hw]
    ring
  · intro window hw
    simp [closesAt, prediction_window_adjusted, safety_margin,
      not_le.2 hw]
    ring

/-- Witness for C6 at createdAt 0 with both scenario windows. -/
theorem closesAt_margin_witness :
    closesAt 0 150 = 0 + 125 ∧ (150 : ℚ) ≤ 180 ∧
    closesAt 0 150 = 0 + 150 - 25 ∧ (180 : ℚ) < 300 ∧
    closesAt 0 300 = 0 + 300 - 60 :=
  ⟨(closesAt_margin 0).1, by norm_num,
   (closesAt_margin 0).2.2.1 150 (by norm_num), by norm_num,
   (closesAt_margin 0).2.2.2 300 (by norm_num)⟩

/-- Validity of a draw of `random.uniform(25, 30)`, the sleep used by the
keepalive loop in `on_open`. -/
def keepalive_draw (r : ℚ) : Prop := 25 ≤ r ∧ r ≤ 30

/-- One iteration of the keepalive loop in `on_open`: send one ping, sleep the
drawn interval, then flag a reconnect when the last pong is more than 10
(minutes) old and no reconnect is already underway.  Returns (pings sent,
slept duration, reconnect triggered). -/
def keepalive_iteration (is_reconneting : Bool) (elapsed_pong r : ℚ) :
    Nat × ℚ × Bool :=
  (1, r, decide (10 < elapsed_pong) && !is_reconneting)

/-- Counterexample to C8 as stated: the code draws from
`random.uniform(25, 30)`, so a draw of 25 is possible, the iteration sleeps
exactly that long, and 25 does not lie in the claimed interval 26–32. -/
theorem keepalive_interval_counterexample :
    keepalive_draw 25 ∧
    (keepalive_iteration false 0 25).2.1 = 25 ∧
    ¬(26 ≤ (keepalive_iteration false 0 25).2.1 ∧
      (keepalive_iteration false 0 25).2.1 ≤ 32) := by
  refine ⟨⟨le_refl _, by norm_num⟩, rfl, ?_⟩
  intro h
  have h26 : (26 : ℚ) ≤ 25 := h.1
  norm_num at h26

/-- Claim C8 theorem (amended): each keepalive iteration sleeps exactly the
drawn interval, which lies between 25 and 30 time units inclusive (the bounds
of `random.uniform(25, 30)`), not 26–32. -/
theorem keepalive_interval_amended (is_reconneting : Bool)
    (elapsed_pong r : ℚ) (h : keepalive_draw r) :
    (keepalive_iteration is_reconneting elapsed_pong r).2.1 = r ∧
    25 ≤ (keepalive_iteration is_reconneting elapsed_pong r).2.1 ∧
    (keepalive_iteration is_reconneting elapsed_pong r).2.1 ≤ 30 :=
  ⟨rfl, h.1, h.2⟩

/-- Witness for C8 (amended) at the draw 27. -/
theorem keepalive_interval_amended_witness :
    (keepalive_iteration false 0 27).2.1 = 27 ∧
    25 ≤ (keepalive_iteration false 0 27).2.1 ∧
    (keepalive_iteration false 0 27).2.1 ≤ 30 :=
  keepalive_interval_amended false 0 27 ⟨by norm_num, by norm_num⟩

/-- Channel fields read and written by `Twitch.check_streamer_online` and the
viewcount branch of `on_message` (Streamer entity). -/
structure StreamerT where
  is_online : Bool
  stream_up : ℚ
  online_at : ℚ
  offline_at : ℚ
deriving Repr, DecidableEq

/-- Remote calls `check_streamer_online` can issue. -/
inductive RemoteAction
  | get_spade_url
  | update_stream
deriving Repr, DecidableEq

/-- Outcome of the remote metadata fetch: normal, or the
StreamerIsOfflineException path. -/
inductive NetOutcome
  | ok
  | offline_exc
deriving Repr, DecidableEq

/-- Streamer.set_offline: record the offline timestamp only on a true
online-to-offline transition. -/
def set_offline (now : ℚ) (st : StreamerT) : StreamerT :=
  if st.is_online then { st with offline_at := now, is_online := false } else st

/-- Streamer.set_online: record the online timestamp only on a true
offline-to-online transition. -/
def set_online (now : ℚ) (st : StreamerT) : StreamerT :=
  if st.is_online then st else { st with online_at := now, is_online := true }

/-- Twitch.check_streamer_online: return immediately when called less than 60
time units after the channel's offline timestamp; otherwise fetch the spade
url and the stream metadata (offline channels) or refresh the metadata
(online channels), marking the channel online/offline per the outcome.  The
second component lists the remote calls issued. -/
def check_streamer_online (now : ℚ) (net : NetOutcome) (st : StreamerT) :
    StreamerT × List RemoteAction :=
  if now < st.offline_at + 60 then (st, [])
  else if st.is_online = false then
    match net with
    | .offline_exc =>
        (set_offline now st, [.get_spade_url, .update_stream])
    | .ok => (set_online now st, [.get_spade_url, .update_stream])
  else
    match net with
    | .offline_exc => (set_offline now st, [.update_stream])
    | .ok => (st, [.update_stream])

/-- Streamer.stream_up_elapsed: the last stream-up signal is unset or more
than 120 time units old. -/
def stream_up_elapsed (now : ℚ) (st : StreamerT) : Bool :=
  decide (st.stream_up = 0) || decide (120 < now - st.stream_up)

/-- Viewcount branch of `on_message` (video-playback-by-id): re-verify online
status only once the stream-up signal has settled for 120 time units. -/
def handle_viewcount (now : ℚ) (net : NetOutcome) (st : StreamerT) :
    StreamerT × List RemoteAction :=
  if stream_up_elapsed now st then check_streamer_online now net st
  else (st, [])

/-- Claim C10 theorem: called less than 60 time units after the channel's
offline timestamp, check_streamer_online returns immediately — the channel
state is unchanged and no remote call is issued — and therefore the
viewcount-triggered online re-verification is likewise suppressed in that
window, whatever the 120-unit stream-up settling test says. -/
theorem check_streamer_online_suppressed (now : ℚ) (net : NetOutcome)
    (st : StreamerT) (h : now < st.offline_at + 60) :
    check_streamer_online now net st = (st, []) ∧
    handle_viewcount now net st = (st, []) := by
  have hc : check_streamer_online now net st = (st, []) := by
    simp [check_streamer_online, h]
  refine ⟨hc, ?_⟩
  unfold handle_viewcount
  split_ifs <;> simp [hc]

/-- Witness for C10: a channel that went offline at 100, probed at 120 with a
long-settled stream-up signal. -/
theorem check_streamer_online_suppressed_witness :
    check_streamer_online 120 NetOutcome.ok
        { is_online := false, stream_up := 0, online_at := 0,
          offline_at := 100 } =
      ({ is_online := false, stream_up := 0, online_at := 0,
         offline_at := 100 }, []) ∧
    handle_viewcount 120 NetOutcome.ok
        { is_online := false, stream_up := 0, online_at := 0,
          offline_at := 100 } =
      ({ is_online := false, stream_up := 0, online_at := 0,
         offline_at := 100 }, []) :=
  check_streamer_online_suppressed 120 NetOutcome.ok
    { is_online := false, stream_up := 0, online_at := 0, offline_at := 100 }
    (by norm_num)

/-- Browser state relevant to wager scheduling: whether a bet session for some
event is currently in flight. -/
structure Browser where
  currently_is_betting : Bool
deriving Repr, DecidableEq

/-- Modelled from the spec: the browser's `start_bet` is not under src/ (only
its caller in `WebSocketsPool.on_message` is).  Per the spec, at most one
wager event may hold an outstanding deferred action system-wide; when the
scheduler is already busy with another event the attempt fails and the
conflict is logged, not queued; otherwise the single in-flight slot is
taken. -/
def start_bet (b : Browser) : Bool × Browser × List String :=
  if b.currently_is_betting then
    (false, b, ["conflict: already betting another event, skip"])
  else
    (true, { currently_is_betting := true }, [])

/-- Wager-tracking state of the dispatcher: the tracked event ids
(`events_predictions`), the armed one-shot place-bet timers, the browser and
the log. -/
structure PredState where
  events_predictions : List Nat
  armed_timers : List Nat
  browser : Browser
  logs : List String
deriving Repr, DecidableEq

/-- Event-created branch of `WebSocketsPool.on_message`
(predictions-channel-v1): track the event when unseen, ACTIVE, the streamer
online, time remaining before the close and the bet condition met; then call
`start_bet`, arming the one-shot place-bet timer on success and deleting the
event from tracking otherwise. -/
def on_event_created (st : PredState) (eid : Nat)
    (active online closing_pos bet_cond : Bool) : PredState :=
  if eid ∈ st.events_predictions then st
  else if active then
    if online && closing_pos && bet_cond then
      match start_bet st.browser with
      | (true, b2, lg) =>
          { events_predictions := st.events_predictions ++ [eid],
            armed_timers := st.armed_timers ++ [eid],
            browser := b2, logs := st.logs ++ lg }
      | (false, b2, lg) =>
          { events_predictions := (st.events_predictions ++ [eid]).erase eid,
            armed_timers := st.armed_timers,
            browser := b2, logs := st.logs ++ lg }
    else st
  else st

theorem erase_append_self (y : Nat) :
    ∀ l : List Nat, y ∉ l → (l ++ [y]).erase y = l := by
  intro l
  induction l with
  | nil => intro _; simp
  | cons a rest ih =>
      intro hy
      have hay : (a == y) = false :=
        beq_eq_false_iff_ne.mpr
          (fun heq => hy (heq ▸ List.mem_cons_self a rest))
      have hyr : y ∉ rest := fun hmem => hy (List.mem_cons_of_mem a hmem)
      simp [List.erase_cons, hay, ih hyr]

/-- Claim C2 theorem: while one wager event's submission is in flight (the
single-bet slot is busy), processing a second trackable event-created message
arms no second deferred action — for any flags the armed-timer list is
unchanged — and when the second event would otherwise have been tracked the
conflict is logged and the event ends up untracked rather than queued. -/
theorem single_inflight_wager (st : PredState) (eid : Nat)
    (active online closing_pos bet_cond : Bool)
    (hbusy : st.browser.currently_is_betting = true) :
    (on_event_created st eid active online closing_pos bet_cond).armed_timers
      = st.armed_timers ∧
    (eid ∉ st.events_predictions → active = true → online = true →
      closing_pos = true → bet_cond = true →
      on_event_created st eid active online closing_pos bet_cond =
        { events_predictions := st.events_predictions,
          armed_timers := st.armed_timers,
          browser := st.browser,
          logs := st.logs ++
            ["conflict: already betting another event, skip"] }) := by
  constructor
  · unfold on_event_created
    split_ifs <;> simp_all [start_bet]
  · intro hnew ha ho hc hb
    subst ha; subst ho; subst hc; subst hb
    simp only [on_event_created, if_neg hnew, if_pos trivial, start_bet,
      hbusy, if_true, Bool.and_self]
    simp [erase_append_self eid _ hnew]

def pred_busy : PredState :=
  { events_predictions := [1], armed_timers := [1],
    browser := { currently_is_betting := true }, logs := [] }

/-- Witness for C2: event 1 is armed and in flight, event 2 becomes trackable
and is skipped with a logged conflict. -/
theorem single_inflight_wager_witness :
    (on_event_created pred_busy 2 true true true true).armed_timers
        = pred_busy.armed_timers ∧
    on_event_created pred_busy 2 true true true true =
      { events_predictions := pred_busy.events_predictions,
        armed_timers := pred_busy.armed_timers,
        browser := pred_busy.browser,
        logs := pred_busy.logs ++
          ["conflict: already betting another event, skip"] } :=
  ⟨(single_inflight_wager pred_busy 2 true true true true rfl).1,
   (single_inflight_wager pred_busy 2 true true true true rfl).2
     (by decide) rfl rfl rfl rfl⟩

/-- Channel fields read by the watch scheduler
(`Twitch.send_minute_watched_events`): online state and timestamps, the
watch-streak and drops settings, and the per-stream streak/drops fields.
`drops_campaigns` keeps one drop count per active campaign. -/
structure StreamerW where
  is_online : Bool
  online_at : ℚ
  offline_at : ℚ
  watch_streak : Bool
  claim_drops : Bool
  watch_streak_missing : Bool
  minute_watched : ℚ
  drops_tags : Bool
  drops_campaigns : List Nat
deriving Repr, DecidableEq

/-- Priority rules of the watch scheduler (Settings.Priority values used by
`send_minute_watched_events`). -/
inductive Priority
  | order
  | streak
  | drops
deriving Repr, DecidableEq

/-- One element of the Python `streamers_watching` list.  The ORDER rule
appends the whole `streamers_index[:2]` slice as a single element, so the
list is heterogeneous: plain indices from the streak/drops rules, a nested
list from the order rule. -/
inductive SelEntry
  | idx (i : Nat)
  | block (l : List Nat)
deriving Repr, DecidableEq

def dummy_streamer : StreamerW :=
  { is_online := false, online_at := 0, offline_at := 0, watch_streak := false,
    claim_drops := false, watch_streak_missing := false, minute_watched := 0,
    drops_tags := false, drops_campaigns := [] }

/-- Cycle eligibility: online, and first seen or online for more than 30
units. -/
def watch_eligible (now : ℚ) (s : StreamerW) : Bool :=
  s.is_online && (decide (s.online_at = 0) || decide (30 < now - s.online_at))

/-- Indices of the currently eligible online channels, in configured order. -/
def streamers_index (now : ℚ) (streamers : List StreamerW) : List Nat :=
  ((streamers.enum).filter (fun p => watch_eligible now p.2)).map Prod.fst

/-- Watch-streak rule test: streak enabled and missing, the channel offline
for over 30 floored minutes (or never offline), and under 7 minutes
watched. -/
def streak_cond (now : ℚ) (s : StreamerW) : Bool :=
  s.watch_streak && s.watch_streak_missing &&
    (decide (s.offline_at = 0) ||
      decide (30 < ((now - s.offline_at) / 60).floor)) &&
    decide (s.minute_watched < 7)

/-- Drops rule test: drops claiming enabled, the stream drop-tagged, and at
least one active campaign. -/
def drops_cond (s : StreamerW) : Bool :=
  s.claim_drops && s.drops_tags && !s.drops_campaigns.isEmpty

/-- Scan of the eligible indices used by the streak and drops rules: append
each index passing the test, stopping once the accumulated selection reaches
two entries (the `break` after the append). -/
def priority_scan (cond : Nat → Bool) : List Nat → List SelEntry → List SelEntry
  | [], acc => acc
  | i :: rest, acc =>
      if cond i then
        if (acc ++ [SelEntry.idx i]).length = 2 then acc ++ [SelEntry.idx i]
        else priority_scan cond rest (acc ++ [SelEntry.idx i])
      else priority_scan cond rest acc

/-- One priority rule applied to the accumulated selection, each guarded by
`len(streamers_watching) <= 2`.  The order rule appends the first-two slice
of the eligible indices as one nested element. -/
def apply_priority (now : ℚ) (streamers : List StreamerW) (idxs : List Nat)
    (acc : List SelEntry) : Priority → List SelEntry
  | .order =>
      if acc.length ≤ 2 then acc ++ [SelEntry.block (idxs.take 2)] else acc
  | .streak =>
      if acc.length ≤ 2 then
        priority_scan
          (fun i => streak_cond now (streamers.getD i dummy_streamer)) idxs acc
      else acc
  | .drops =>
      if acc.length ≤ 2 then
        priority_scan
          (fun i => drops_cond (streamers.getD i dummy_streamer)) idxs acc
      else acc

/-- Selection of one watch-scheduler cycle: fold the ordered priority rules
over the eligible indices, then truncate to the first two elements
(`streamers_watching[:2]`). -/
def streamers_watching (now : ℚ) (streamers : List StreamerW)
    (priority : List Priority) : List SelEntry :=
  (priority.foldl
    (fun acc p => apply_priority now streamers
      (streamers_index now streamers) acc p) []).take 2

/-- Heartbeat loop over the selection: each plain index receives one
minute-watched request; indexing the streamer list with a nested list raises
a TypeError that only the ConnectionError handler surrounds, so a block
element aborts the loop (modelled as `.error ()`). -/
def heartbeats_go : List SelEntry → List Nat → Except Unit (List Nat)
  | [], sent => .ok sent
  | SelEntry.idx i :: rest, sent => heartbeats_go rest (sent ++ [i])
  | SelEntry.block _ :: _, _ => .error ()

/-- Channels that actually receive a heartbeat in one cycle, or the uncaught
TypeError. -/
def minute_watched_heartbeats (sel : List SelEntry) : Except Unit (List Nat) :=
  heartbeats_go sel []

def online_streamer : StreamerW :=
  { is_online := true, online_at := 0, offline_at := 0, watch_streak := false,
    claim_drops := false, watch_streak_missing := false, minute_watched := 0,
    drops_tags := false, drops_campaigns := [] }

/-- Claim C1 theorem (code bug witness): with five eligible online channels
and the declared rule order, the cycle's selection is a single nested-list
element — the order rule appends `streamers_index[:2]` itself instead of its
members — so the scheduler does not select two channels, and the heartbeat
loop raises an uncaught TypeError instead of sending one heartbeat to each of
two channels. -/
theorem watch_scheduler_cap_code_bug :
    streamers_watching 100 (List.replicate 5 online_streamer)
        [Priority.order, Priority.streak, Priority.drops]
      = [SelEntry.block [0, 1]] ∧
    minute_watched_heartbeats
        (streamers_watching 100 (List.replicate 5 online_streamer)
          [Priority.order, Priority.streak, Priority.drops])
      = .error () := by
  constructor
  · rfl
  · rfl
